import Mathlib

/-!
Shallow embedding of `airflow/providers/http/operators/http.py`
(`SimpleHttpOperator`): the constructor (`__init__`, lines 68-93) and the
`execute` method (lines 95-112).

Python values that can flow through the operator's configuration fields and
through the user-supplied callables are modelled by `PyVal`, with Python
truthiness made explicit.  Exceptions are modelled by `PyExc`; fallible code
returns `Except PyExc _`.  The `HttpHook` lives outside this source fragment,
so the outcome of the single `http.run(...)` call is supplied by the
environment as a function `HookRun` of exactly the arguments the source
passes to the hook (constructor arguments `method`, `http_conn_id`,
`auth_type`; run arguments `endpoint`, `data`, `headers`, `extra_options`).
Likewise `determine_kwargs` (imported from `airflow.utils.operator_helpers`)
is external: a user callable is modelled as a function of the response and
the execution context, which already accounts for the kwargs it would be
handed.
-/

/-- A Python value, as far as the operator's fields and callables need:
`None`, booleans, integers, strings, string-keyed mappings and lists.
Mapping values and list elements are kept opaque (strings) because the
operator never inspects them; only identity, emptiness and truthiness of
these values matter to its control flow. -/
inductive PyVal where
  | none
  | bool (b : Bool)
  | int (n : Int)
  | str (s : String)
  | dict (entries : List (String × String))
  | list (elems : List String)
  deriving DecidableEq

/-- Python truthiness: `None`, `False`, `0`, `""`, `{}` and `[]` are falsy;
everything else is truthy. -/
def PyVal.truthy : PyVal → Bool
  | .none => false
  | .bool b => b
  | .int n => n != 0
  | .str s => s ≠ ""
  | .dict entries => entries ≠ []
  | .list elems => elems ≠ []

/-- An HTTP response as the operator sees it: a status code and the body
text (`response.text`). -/
structure Response where
  status : Nat
  text : String
  deriving DecidableEq

/-- A Python exception, covering the spec's taxonomy: errors raised by the
hook call (transport failures and non-2xx statuses), `AirflowException`
(raised by the operator itself at line 108), and arbitrary exceptions
raised by user-supplied callables. -/
inductive PyExc where
  | transportError (msg : String)
  | httpStatusError (code : Nat) (body : String)
  | airflowException (msg : String)
  | userError (v : PyVal)
  deriving DecidableEq

/-- The execution context handed to `execute` by the scheduler: a mapping of
named values, from which `determine_kwargs` selects keyword arguments. -/
abbrev Context := List (String × PyVal)

/-- A user-supplied callable (`response_check` or `response_filter`): given
the response and the execution context it either returns a value or raises
an exception.  (The source invokes it as `f(response, **kwargs)` where
`kwargs = determine_kwargs(f, [response], context)`; `determine_kwargs` is
external code, so the kwargs selection is folded into the function.) -/
abbrev Callable := Response → Context → Except PyExc PyVal

/-- The configuration fields stored on the task object by `__init__`
(lines 84-93). -/
structure SimpleHttpOperator where
  http_conn_id : String
  method : String
  endpoint : Option String
  headers : PyVal
  data : PyVal
  response_check : Option Callable
  response_filter : Option Callable
  extra_options : PyVal
  log_response : Bool
  auth_type : String

/-- `__init__` (lines 68-93): stores every argument on the object, replacing
`headers`, `data` and `extra_options` by a fresh empty dict when they are
falsy (`self.headers = headers or {}` etc., lines 87, 88, 91). -/
def initOp (endpoint : Option String) (method : String) (data : PyVal)
    (headers : PyVal) (response_check : Option Callable)
    (response_filter : Option Callable) (extra_options : PyVal)
    (http_conn_id : String) (log_response : Bool) (auth_type : String) :
    SimpleHttpOperator :=
  { http_conn_id := http_conn_id
    method := method
    endpoint := endpoint
    headers := if headers.truthy then headers else .dict []
    data := if data.truthy then data else .dict []
    response_check := response_check
    response_filter := response_filter
    extra_options := if extra_options.truthy then extra_options else .dict []
    log_response := log_response
    auth_type := auth_type }

/-- The outcome of the single `http.run(...)` call (line 102), supplied by
the environment as a function of every piece of configuration the source
hands to the hook: `HttpHook(method, http_conn_id=..., auth_type=...)`
followed by `run(endpoint, data, headers, extra_options)`. -/
abbrev HookRun :=
  String → String → String → Option String → PyVal → PyVal → PyVal →
    Except PyExc Response

/-- What one call to `execute` produced: the returned value or propagated
exception, the informational log messages emitted in order, the task
object's configuration after the call, and whether `response_check` /
`response_filter` were actually invoked (the spec's side-effect counters). -/
structure ExecResult where
  result : Except PyExc PyVal
  logs : List String
  finalOp : SimpleHttpOperator
  checkInvoked : Bool
  filterInvoked : Bool

/-- Lines 109-112: if `response_filter` is set, invoke it and return its
value (an exception it raises propagates); otherwise return the raw
`response.text`.  `checked` records whether `response_check` was invoked
earlier, and is threaded through unchanged. -/
def filterStep (op : SimpleHttpOperator) (resp : Response) (ctx : Context)
    (checked : Bool) : Except PyExc PyVal × Bool × Bool :=
  match op.response_filter with
  | some filt =>
    match filt resp ctx with
    | .error e => (.error e, checked, true)
    | .ok v => (.ok v, checked, true)
  | none => (.ok (.str resp.text), checked, false)

/-- Lines 105-112: the `response_check` gate followed by the filter / raw
text result.  `if self.response_check:` is the truthiness test of an
optional callable (functions are truthy, `None` is falsy), so it is exactly
the `Option` match; `if not self.response_check(response, **kwargs):` tests
the truthiness of the returned value.  Returns
(result, checkInvoked, filterInvoked). -/
def checkAndFilter (op : SimpleHttpOperator) (resp : Response)
    (ctx : Context) : Except PyExc PyVal × Bool × Bool :=
  match op.response_check with
  | some check =>
    match check resp ctx with
    | .error e => (.error e, true, false)
    | .ok v =>
      if v.truthy then filterStep op resp ctx true
      else (.error (.airflowException "Response check returned False."),
            true, false)
  | none => filterStep op resp ctx false

/-- `execute` (lines 95-112).  In source order: log "Calling HTTP method"
(line 100, unconditional); call the hook (line 102) — an exception there
propagates and nothing further runs; log `response.text` if `log_response`
(lines 103-104); run the check gate and filter (lines 105-112).  The method
assigns no attribute of `self`, so the final configuration is the input
configuration. -/
def execute (op : SimpleHttpOperator) (hookRun : HookRun) (ctx : Context) :
    ExecResult :=
  match hookRun op.method op.http_conn_id op.auth_type op.endpoint op.data
      op.headers op.extra_options with
  | .error e =>
    { result := .error e, logs := ["Calling HTTP method"], finalOp := op,
      checkInvoked := false, filterInvoked := false }
  | .ok resp =>
    let logs := if op.log_response
      then ["Calling HTTP method", resp.text]
      else ["Calling HTTP method"]
    let res := checkAndFilter op resp ctx
    { result := res.1, logs := logs, finalOp := op,
      checkInvoked := res.2.1, filterInvoked := res.2.2 }

/-! ### Concrete instances used by the witnesses -/

/-- A concrete successful response. -/
def respW : Response := ⟨200, "hello"⟩

/-- A hook environment whose single call succeeds with `respW`. -/
def hookOkW : HookRun := fun _ _ _ _ _ _ _ => .ok respW

/-- A response check that returns `False`. -/
def checkFalseW : Callable := fun _ _ => .ok (.bool false)

/-- A response check that returns `True`. -/
def checkTrueW : Callable := fun _ _ => .ok (.bool true)

/-- A response filter that returns the string "filtered". -/
def filterConstW : Callable := fun _ _ => .ok (.str "filtered")

/-! ### Claims -/

/-- C1: if `response_check` is present and returns `False` on the response,
`execute` fails with the validation error
(`AirflowException "Response check returned False."`, the spec's
`ResponseValidationError`) and `response_filter` is never invoked. -/
theorem C1_check_false_fails_without_filter (op : SimpleHttpOperator)
    (hookRun : HookRun) (ctx : Context) (check : Callable) (resp : Response)
    (hc : op.response_check = some check)
    (hh : hookRun op.method op.http_conn_id op.auth_type op.endpoint op.data
        op.headers op.extra_options = .ok resp)
    (hv : check resp ctx = .ok (.bool false)) :
    (execute op hookRun ctx).result
        = .error (.airflowException "Response check returned False.")
      ∧ (execute op hookRun ctx).filterInvoked = false := by
  simp [execute, hh, checkAndFilter, hc, hv, PyVal.truthy]

/-- Witness for C1 at a concrete task: check returns `False`, a filter is
installed, and execution ends in the validation error with the filter never
invoked. -/
theorem C1_witness :
    (execute (initOp none "GET" .none .none (some checkFalseW)
        (some filterConstW) .none "http_default" false "HTTPBasicAuth")
        hookOkW []).result
        = .error (.airflowException "Response check returned False.")
      ∧ (execute (initOp none "GET" .none .none (some checkFalseW)
        (some filterConstW) .none "http_default" false "HTTPBasicAuth")
        hookOkW []).filterInvoked = false :=
  C1_check_false_fails_without_filter _ hookOkW [] checkFalseW respW
    rfl rfl rfl

/-- C2: if the hook call succeeds, `response_check` is absent or returns
`True`, and `response_filter` is present and returns a value, then `execute`
returns exactly the filter's value. -/
theorem C2_result_is_filter_value (op : SimpleHttpOperator)
    (hookRun : HookRun) (ctx : Context) (filt : Callable) (resp : Response)
    (v : PyVal)
    (hh : hookRun op.method op.http_conn_id op.auth_type op.endpoint op.data
        op.headers op.extra_options = .ok resp)
    (hcheck : op.response_check = none ∨
      ∃ check, op.response_check = some check
        ∧ check resp ctx = .ok (.bool true))
    (hf : op.response_filter = some filt)
    (hv : filt resp ctx = .ok v) :
    (execute op hookRun ctx).result = .ok v := by
  rcases hcheck with h | ⟨check, hc, hcv⟩
  · simp [execute, hh, checkAndFilter, filterStep, h, hf, hv]
  · simp [execute, hh, checkAndFilter, filterStep, hc, hcv, hf, hv,
      PyVal.truthy]

/-- Witness for C2 at a concrete task: check returns `True`, the filter
returns "filtered", and that is the result (not the raw body "hello"). -/
theorem C2_witness :
    (execute (initOp none "GET" .none .none (some checkTrueW)
        (some filterConstW) .none "http_default" false "HTTPBasicAuth")
        hookOkW []).result = .ok (.str "filtered") :=
  C2_result_is_filter_value _ hookOkW [] filterConstW respW (.str "filtered")
    rfl (Or.inr ⟨checkTrueW, rfl, rfl⟩) rfl rfl

/-- C3: if the hook call succeeds and neither `response_check` nor
`response_filter` is set, `execute` returns the raw response body text,
byte-for-byte. -/
theorem C3_result_is_raw_text (op : SimpleHttpOperator) (hookRun : HookRun)
    (ctx : Context) (resp : Response)
    (hh : hookRun op.method op.http_conn_id op.auth_type op.endpoint op.data
        op.headers op.extra_options = .ok resp)
    (hc : op.response_check = none) (hf : op.response_filter = none) :
    (execute op hookRun ctx).result = .ok (.str resp.text) := by
  simp [execute, hh, checkAndFilter, filterStep, hc, hf]

/-- Witness for C3 at a concrete task with no callables: the result is the
raw body "hello". -/
theorem C3_witness :
    (execute (initOp none "GET" .none .none none none .none "http_default"
        false "HTTPBasicAuth") hookOkW []).result = .ok (.str "hello") :=
  C3_result_is_raw_text _ hookOkW [] respW rfl rfl rfl

/-- A hook environment whose single call raises a transport error. -/
def hookErrW : HookRun := fun _ _ _ _ _ _ _ => .error (.transportError "timeout")

/-- A response filter that raises an exception. -/
def filterRaiseW : Callable := fun _ _ => .error (.userError (.str "boom"))

/-- C4 counterexample: line 100 of the source logs "Calling HTTP method"
unconditionally, so a concrete execution with `log_response = false` emits
one log message, not zero as the claim states. -/
theorem C4_counterexample :
    (initOp none "GET" .none .none none none .none "http_default" false
        "HTTPBasicAuth").log_response = false
      ∧ (execute (initOp none "GET" .none .none none none .none
          "http_default" false "HTTPBasicAuth") hookOkW []).logs
        = ["Calling HTTP method"] :=
  ⟨rfl, rfl⟩

/-- C4 (amended): every call to `execute` first emits the fixed
informational message "Calling HTTP method"; beyond that, there is exactly
one additional emission, containing the full response body, when the hook
call succeeds and `log_response` is true, and no additional emission
otherwise (hook failure or `log_response` false). -/
theorem C4_log_emissions (op : SimpleHttpOperator) (hookRun : HookRun)
    (ctx : Context) :
    (execute op hookRun ctx).logs =
      "Calling HTTP method" ::
        (match hookRun op.method op.http_conn_id op.auth_type op.endpoint
            op.data op.headers op.extra_options with
          | .ok resp => if op.log_response then [resp.text] else []
          | .error _ => []) := by
  unfold execute
  cases hh : hookRun op.method op.http_conn_id op.auth_type op.endpoint
      op.data op.headers op.extra_options with
  | error e => rfl
  | ok resp => cases hl : op.log_response <;> simp [hl]

/-- C5: if the hook call itself fails, `execute` propagates that exact
exception, emits no response-body log (only the fixed pre-call message),
and invokes neither `response_check` nor `response_filter`.  The embedding
calls the hook exactly once by construction, so no retry occurs. -/
theorem C5_hook_error_propagates (op : SimpleHttpOperator)
    (hookRun : HookRun) (ctx : Context) (e : PyExc)
    (hh : hookRun op.method op.http_conn_id op.auth_type op.endpoint op.data
        op.headers op.extra_options = .error e) :
    (execute op hookRun ctx).result = .error e
      ∧ (execute op hookRun ctx).logs = ["Calling HTTP method"]
      ∧ (execute op hookRun ctx).checkInvoked = false
      ∧ (execute op hookRun ctx).filterInvoked = false := by
  simp [execute, hh]

/-- Witness for C5 at a concrete task (with `log_response = true` and both
callables installed, none of which run): the transport error comes back
unmodified. -/
theorem C5_witness :
    (execute (initOp none "GET" .none .none (some checkTrueW)
        (some filterConstW) .none "http_default" true "HTTPBasicAuth")
        hookErrW []).result = .error (.transportError "timeout")
      ∧ (execute (initOp none "GET" .none .none (some checkTrueW)
          (some filterConstW) .none "http_default" true "HTTPBasicAuth")
          hookErrW []).logs = ["Calling HTTP method"]
      ∧ (execute (initOp none "GET" .none .none (some checkTrueW)
          (some filterConstW) .none "http_default" true "HTTPBasicAuth")
          hookErrW []).checkInvoked = false
      ∧ (execute (initOp none "GET" .none .none (some checkTrueW)
          (some filterConstW) .none "http_default" true "HTTPBasicAuth")
          hookErrW []).filterInvoked = false :=
  C5_hook_error_propagates _ hookErrW [] (.transportError "timeout") rfl

/-- C6: if control reaches a present `response_filter` (hook succeeded,
check absent or truthy) and the filter raises, that exact exception
propagates out of `execute` unmodified. -/
theorem C6_filter_exception_propagates (op : SimpleHttpOperator)
    (hookRun : HookRun) (ctx : Context) (filt : Callable) (resp : Response)
    (e : PyExc)
    (hh : hookRun op.method op.http_conn_id op.auth_type op.endpoint op.data
        op.headers op.extra_options = .ok resp)
    (hcheck : op.response_check = none ∨
      ∃ check v, op.response_check = some check ∧ check resp ctx = .ok v
        ∧ v.truthy = true)
    (hf : op.response_filter = some filt)
    (he : filt resp ctx = .error e) :
    (execute op hookRun ctx).result = .error e
      ∧ (execute op hookRun ctx).filterInvoked = true := by
  rcases hcheck with h | ⟨check, v, hc, hcv, hv⟩
  · simp [execute, hh, checkAndFilter, filterStep, h, hf, he]
  · simp [execute, hh, checkAndFilter, filterStep, hc, hcv, hv, hf, he]

/-- Witness for C6 at a concrete task whose filter raises: the exception
comes back unmodified. -/
theorem C6_witness :
    (execute (initOp none "GET" .none .none none (some filterRaiseW) .none
        "http_default" false "HTTPBasicAuth") hookOkW []).result
        = .error (.userError (.str "boom"))
      ∧ (execute (initOp none "GET" .none .none none (some filterRaiseW)
          .none "http_default" false "HTTPBasicAuth") hookOkW
          []).filterInvoked = true :=
  C6_filter_exception_propagates _ hookOkW [] filterRaiseW respW
    (.userError (.str "boom")) rfl (Or.inl rfl) rfl rfl

/-- C7: `execute` assigns no attribute of the task object, so every
configuration field is unchanged by the call, whether it succeeds or fails,
and no additional state is stored. -/
theorem C7_config_immutable (op : SimpleHttpOperator) (hookRun : HookRun)
    (ctx : Context) :
    (execute op hookRun ctx).finalOp = op := by
  cases hh : hookRun op.method op.http_conn_id op.auth_type op.endpoint
      op.data op.headers op.extra_options <;> simp [execute, hh]

/-- A response check that returns the empty string (a falsy non-boolean). -/
def checkEmptyStrW : Callable := fun _ _ => .ok (.str "")

/-- C8: the validation gate is Python truthiness, not boolean equality.
With `response_check` present and returning value `v`: if `v` is falsy the
task fails with the validation error and the filter never runs; if `v` is
truthy, `execute` produces the same result as the identical task with no
check at all — so the concrete truthy value is discarded. -/
theorem C8_truthiness_gate (op : SimpleHttpOperator) (hookRun : HookRun)
    (ctx : Context) (check : Callable) (resp : Response) (v : PyVal)
    (hc : op.response_check = some check)
    (hh : hookRun op.method op.http_conn_id op.auth_type op.endpoint op.data
        op.headers op.extra_options = .ok resp)
    (hv : check resp ctx = .ok v) :
    (v.truthy = false →
      (execute op hookRun ctx).result
          = .error (.airflowException "Response check returned False.")
        ∧ (execute op hookRun ctx).filterInvoked = false)
    ∧ (v.truthy = true →
      (execute op hookRun ctx).result
        = (execute { op with response_check := none } hookRun ctx).result) := by
  constructor
  · intro hfalse
    simp [execute, hh, checkAndFilter, hc, hv, hfalse]
  · intro htrue
    simp [execute, hh, checkAndFilter, filterStep, hc, hv, htrue]
    cases hf : op.response_filter with
    | none => rfl
    | some filt => cases hfr : filt resp ctx <;> simp [hfr]

/-- Witness for C8 at a concrete task whose check returns `""` (falsy but
not `False`): the task fails with the validation error. -/
theorem C8_witness :
    ((PyVal.str "").truthy = false →
      (execute (initOp none "GET" .none .none (some checkEmptyStrW)
          (some filterConstW) .none "http_default" false "HTTPBasicAuth")
          hookOkW []).result
          = .error (.airflowException "Response check returned False.")
        ∧ (execute (initOp none "GET" .none .none (some checkEmptyStrW)
            (some filterConstW) .none "http_default" false "HTTPBasicAuth")
            hookOkW []).filterInvoked = false)
    ∧ ((PyVal.str "").truthy = true →
      (execute (initOp none "GET" .none .none (some checkEmptyStrW)
          (some filterConstW) .none "http_default" false "HTTPBasicAuth")
          hookOkW []).result
        = (execute { initOp none "GET" .none .none (some checkEmptyStrW)
            (some filterConstW) .none "http_default" false "HTTPBasicAuth"
            with response_check := none } hookOkW []).result) :=
  C8_truthiness_gate _ hookOkW [] checkEmptyStrW respW (.str "")
    rfl rfl rfl

/-- C9: `__init__` replaces any falsy `data` argument and, independently,
any falsy `headers` argument (not just absent ones) by a fresh empty
mapping, via `data or {}` and `headers or {}`.  Each field is handled on
its own, whatever the other argument is. -/
theorem C9_falsy_init_defaults_each (endpoint : Option String)
    (method : String) (data headers : PyVal) (rc rf : Option Callable)
    (eo : PyVal) (cid : String) (lr : Bool) (auth : String) :
    (data.truthy = false →
      (initOp endpoint method data headers rc rf eo cid lr auth).data
        = .dict [])
    ∧ (headers.truthy = false →
      (initOp endpoint method data headers rc rf eo cid lr auth).headers
        = .dict []) := by
  constructor <;> intro h <;> simp [initOp, h]

/-- Witness for C9 at mixed concrete inputs: a task constructed with
`data = ""` and truthy headers stores the empty mapping for `data`, and a
task constructed with truthy `data` and `headers = 0` stores the empty
mapping for `headers`. -/
theorem C9_witness :
    ((PyVal.str "").truthy = false
      ∧ (initOp none "POST" (.str "") (.dict [("a", "b")]) none none .none
          "http_default" false "HTTPBasicAuth").data = .dict [])
    ∧ ((PyVal.int 0).truthy = false
      ∧ (initOp none "POST" (.dict [("k", "v")]) (.int 0) none none .none
          "http_default" false "HTTPBasicAuth").headers = .dict []) :=
  ⟨⟨by decide,
    (C9_falsy_init_defaults_each none "POST" (.str "") (.dict [("a", "b")])
      none none .none "http_default" false "HTTPBasicAuth").1 (by decide)⟩,
   ⟨by decide,
    (C9_falsy_init_defaults_each none "POST" (.dict [("k", "v")]) (.int 0)
      none none .none "http_default" false "HTTPBasicAuth").2 (by decide)⟩⟩

/-- C10: with `log_response = true`, the response body is logged (lines
103-104) before `response_check` runs (lines 105-108), so even when the
check returns a falsy value and the task fails with the validation error,
the full body appears in the logs. -/
theorem C10_body_logged_despite_check_failure (op : SimpleHttpOperator)
    (hookRun : HookRun) (ctx : Context) (check : Callable) (resp : Response)
    (v : PyVal)
    (hl : op.log_response = true)
    (hc : op.response_check = some check)
    (hh : hookRun op.method op.http_conn_id op.auth_type op.endpoint op.data
        op.headers op.extra_options = .ok resp)
    (hv : check resp ctx = .ok v) (hfv : v.truthy = false) :
    (execute op hookRun ctx).logs = ["Calling HTTP method", resp.text]
      ∧ (execute op hookRun ctx).result
        = .error (.airflowException "Response check returned False.") := by
  simp [execute, hh, hl, checkAndFilter, hc, hv, hfv]

/-- Witness for C10 at a concrete task with logging on and a failing check:
the body "hello" is in the logs even though the task fails. -/
theorem C10_witness :
    (execute (initOp none "GET" .none .none (some checkFalseW) none .none
        "http_default" true "HTTPBasicAuth") hookOkW []).logs
        = ["Calling HTTP method", "hello"]
      ∧ (execute (initOp none "GET" .none .none (some checkFalseW) none
          .none "http_default" true "HTTPBasicAuth") hookOkW []).result
        = .error (.airflowException "Response check returned False.") :=
  C10_body_logged_despite_check_failure _ hookOkW [] checkFalseW respW
    (.bool false) rfl rfl rfl rfl rfl
